import Mathlib

/-!
Shallow embedding of the cosmic flight simulator core
(`src/simulator/types.py`, `spacecraft.py`, `physics.py`, `solar_system.py`).
Python floats are modelled as real numbers; each Lean definition mirrors the
corresponding Python function line by line.
-/

namespace Sim

noncomputable section

/-- 3D vector for position, velocity, and acceleration (`types.py`, `Vector3D`). -/
@[ext]
structure Vector3D where
  x : ℝ
  y : ℝ
  z : ℝ

/-- `Vector3D.magnitude`: `math.sqrt(self.x**2 + self.y**2 + self.z**2)`. -/
def Vector3D.magnitude (v : Vector3D) : ℝ :=
  Real.sqrt (v.x ^ 2 + v.y ^ 2 + v.z ^ 2)

/-- `Vector3D.normalize`: returns the zero vector when the magnitude is zero,
otherwise divides each component by the magnitude. -/
def Vector3D.normalize (v : Vector3D) : Vector3D :=
  if v.magnitude = 0 then ⟨0, 0, 0⟩
  else ⟨v.x / v.magnitude, v.y / v.magnitude, v.z / v.magnitude⟩

/-- `Vector3D.dot`. -/
def Vector3D.dot (v other : Vector3D) : ℝ :=
  v.x * other.x + v.y * other.y + v.z * other.z

/-- `Vector3D.__sub__`. -/
def Vector3D.sub (v other : Vector3D) : Vector3D :=
  ⟨v.x - other.x, v.y - other.y, v.z - other.z⟩

/-- `Vector3D.__mul__` (multiplication by a scalar). -/
def Vector3D.smul (v : Vector3D) (scalar : ℝ) : Vector3D :=
  ⟨v.x * scalar, v.y * scalar, v.z * scalar⟩

/-- `Vector3D.__neg__`. -/
def Vector3D.neg (v : Vector3D) : Vector3D :=
  ⟨-v.x, -v.y, -v.z⟩

/-- Quaternion for 3D rotation (`types.py`, `Quaternion`). -/
@[ext]
structure Quaternion where
  w : ℝ
  x : ℝ
  y : ℝ
  z : ℝ

/-- Python's `math.atan2(y, x)`: the angle of the point `(x, y)` in `(-π, π]`,
with `atan2 0 0 = 0`. -/
def atan2 (y x : ℝ) : ℝ :=
  if 0 < x then Real.arctan (y / x)
  else if x < 0 then
    (if 0 ≤ y then Real.arctan (y / x) + Real.pi else Real.arctan (y / x) - Real.pi)
  else
    (if 0 < y then Real.pi / 2 else if y < 0 then -(Real.pi / 2) else 0)

/-- `Quaternion.to_euler`: convert to Euler angles (pitch, yaw, roll) in radians. -/
def Quaternion.to_euler (q : Quaternion) : ℝ × ℝ × ℝ :=
  let pitch := Real.arcsin (2 * (q.w * q.y - q.z * q.x))
  let yaw := atan2 (2 * (q.w * q.z + q.x * q.y)) (1 - 2 * (q.y ^ 2 + q.z ^ 2))
  let roll := atan2 (2 * (q.w * q.x + q.y * q.z)) (1 - 2 * (q.x ^ 2 + q.y ^ 2))
  (pitch, yaw, roll)

/-- `Quaternion.from_euler`: create a quaternion from Euler angles. -/
def Quaternion.from_euler (pitch yaw roll : ℝ) : Quaternion :=
  let cy := Real.cos (yaw * 0.5)
  let sy := Real.sin (yaw * 0.5)
  let cp := Real.cos (pitch * 0.5)
  let sp := Real.sin (pitch * 0.5)
  let cr := Real.cos (roll * 0.5)
  let sr := Real.sin (roll * 0.5)
  { w := cy * cp * cr + sy * sp * sr
    x := cy * cp * sr - sy * sp * cr
    y := sy * cp * sr + cy * sp * cr
    z := sy * cp * cr - cy * sp * sr }

/-- `Quaternion.normalize`: normalize to unit length; a zero-norm quaternion
yields the identity quaternion. -/
def Quaternion.normalize (q : Quaternion) : Quaternion :=
  let mag := Real.sqrt (q.w ^ 2 + q.x ^ 2 + q.y ^ 2 + q.z ^ 2)
  if mag = 0 then ⟨1, 0, 0, 0⟩
  else ⟨q.w / mag, q.x / mag, q.y / mag, q.z / mag⟩

/-- Spacecraft with physical properties and operational state
(`spacecraft.py`, `Spacecraft` dataclass, defaults included). -/
structure Spacecraft where
  id : String
  name : String
  ship_type : String
  mass : ℝ
  dry_mass : ℝ
  max_fuel_capacity : ℝ
  current_fuel : ℝ
  max_thrust : ℝ
  specific_impulse : ℝ
  cruise_speed : ℝ
  position : Vector3D := ⟨0, 0, 0⟩
  velocity : Vector3D := ⟨0, 0, 0⟩
  acceleration : Vector3D := ⟨0, 0, 0⟩
  orientation : Quaternion := ⟨1, 0, 0, 0⟩
  angular_velocity : Vector3D := ⟨0, 0, 0⟩
  thrust_level : ℝ := 0
  thrust_vector : Vector3D := ⟨1, 0, 0⟩
  throttle : ℝ := 0
  boost_active : Bool := false
  shields_active : Bool := false
  hull_integrity : ℝ := 1
  oxygen_level : ℝ := 100
  cabin_pressure : ℝ := 101.3
  cabin_temp : ℝ := 20
  life_support_status : String := "nominal"

/-- `Spacecraft.get_current_mass`: dry mass plus fuel mass at 0.75 kg/L. -/
def Spacecraft.get_current_mass (s : Spacecraft) : ℝ :=
  s.dry_mass + s.current_fuel * 0.75

/-- `Spacecraft.consume_fuel`: consume fuel based on thrust level and time;
returns the fuel consumed in L together with the updated spacecraft. -/
def Spacecraft.consume_fuel (s : Spacecraft) (delta_time : ℝ) : ℝ × Spacecraft :=
  if s.thrust_level ≤ 0 then (0, s)
  else
    let fuel_per_second := (s.thrust_level * s.max_thrust) / (s.specific_impulse * 9.81)
    let fuel_consumed := fuel_per_second * delta_time
    let fuel_consumed := if s.boost_active then fuel_consumed * 2 else fuel_consumed
    let fuel_consumed := min fuel_consumed s.current_fuel
    (fuel_consumed, { s with current_fuel := s.current_fuel - fuel_consumed })

/-- `Spacecraft.update_life_support`: decrement oxygen at 0.1 %/s, floor at 0,
and recompute the life-support status. -/
def Spacecraft.update_life_support (s : Spacecraft) (delta_time : ℝ) : Spacecraft :=
  let oxygen_consumption := 0.1 * delta_time
  let new_oxygen := max 0 (s.oxygen_level - oxygen_consumption)
  let status :=
    if new_oxygen > 50 then "nominal"
    else if new_oxygen > 20 then "warning"
    else "critical"
  { s with oxygen_level := new_oxygen, life_support_status := status }

/-- `Spacecraft.set_throttle`: clamp the throttle to 0–100 % and derive the
thrust level. -/
def Spacecraft.set_throttle (s : Spacecraft) (percentage : ℝ) : Spacecraft :=
  let throttle := max 0 (min 100 percentage)
  { s with throttle := throttle, thrust_level := throttle / 100 }

/-- Planetary body with physical and orbital properties
(`solar_system.py`, `CelestialBody` dataclass; the `__post_init__` defaulting
of `position` and `velocity` to the zero vector is modelled by field
defaults). -/
structure CelestialBody where
  id : String
  name : String
  type : String
  mass : ℝ
  radius : ℝ
  atmosphere_pressure : ℝ
  atmosphere_depth : ℝ
  temperature : ℝ
  has_atmosphere : Bool
  has_water : Bool
  parent_id : Option String := none
  semi_major_axis : ℝ := 0
  eccentricity : ℝ := 0
  inclination : ℝ := 0
  orbital_period : ℝ := 0
  rotation_period : ℝ := 0
  orbital_velocity : ℝ := 0
  position : Vector3D := ⟨0, 0, 0⟩
  velocity : Vector3D := ⟨0, 0, 0⟩

/-- `CelestialBody.get_surface_gravity`: `G·mass / radius²`, and exactly 0 for
a zero-radius body. -/
def CelestialBody.get_surface_gravity (b : CelestialBody) : ℝ :=
  if b.radius = 0 then 0
  else (6.67430e-11 * b.mass) / b.radius ^ 2

/-- `PhysicsEngine.__init__` sets `self.gravitational_constant` to this value. -/
def gravitational_constant : ℝ := 6.67430e-11

/-- `PhysicsEngine.calculate_gravity`: gravitational force on the spacecraft
from the celestial body. -/
def calculate_gravity (spacecraft : Spacecraft) (celestial_body : CelestialBody) :
    Vector3D :=
  let r := spacecraft.position.sub celestial_body.position
  let distance := r.magnitude
  if distance = 0 then ⟨0, 0, 0⟩
  else
    let force_magnitude :=
      gravitational_constant * celestial_body.mass * spacecraft.get_current_mass
        / distance ^ 2
    let force_direction := r.normalize.neg
    force_direction.smul force_magnitude

/-- `PhysicsEngine.calculate_acceleration`: `F = m·a`, returning the zero
vector when the mass is zero. -/
def calculate_acceleration (force : Vector3D) (mass : ℝ) : Vector3D :=
  if mass = 0 then ⟨0, 0, 0⟩
  else force.smul (1 / mass)

/-- The Sun created by `SolarSystem._initialize_system`. -/
def the_sun : CelestialBody :=
  { id := "sun"
    name := "Sun"
    type := "star"
    mass := 1.9891e30
    radius := 6.9634e8
    atmosphere_pressure := 0
    atmosphere_depth := 0
    temperature := 5778
    has_atmosphere := false
    has_water := false }

/-- Solar system registry (`solar_system.py`, `SolarSystem`).  The Python
`dict[str, CelestialBody]` keyed by body id and iterated in insertion order is
modelled as a list of bodies whose ids act as the keys. -/
structure SolarSystem where
  bodies : List CelestialBody
  sun : Option CelestialBody

/-- `SolarSystem.__init__` followed by `_initialize_system`: the registry
holds exactly the Sun. -/
def SolarSystem.init : SolarSystem :=
  { bodies := [the_sun], sun := some the_sun }

/-- `SolarSystem.add_body`: dict insertion — replace the entry with the same
id in place if present, otherwise append. -/
def SolarSystem.add_body (sys : SolarSystem) (body : CelestialBody) : SolarSystem :=
  { sys with
      bodies :=
        if sys.bodies.any (fun b => b.id == body.id) then
          sys.bodies.map (fun b => if b.id == body.id then body else b)
        else sys.bodies ++ [body] }

/-- The loop of `SolarSystem.get_nearest_body`.  The accumulator holds the
current `nearest` body paired with its `min_distance`; `none` models the
initial state `nearest = None`, `min_distance = inf` (any real distance
compares below `inf`, so the first body always replaces it). -/
def nearestLoop (position : Vector3D) :
    List CelestialBody → Option (CelestialBody × ℝ) → Option (CelestialBody × ℝ)
  | [], acc => acc
  | body :: rest, acc =>
      let distance := (position.sub body.position).magnitude
      match acc with
      | none => nearestLoop position rest (some (body, distance))
      | some (nb, md) =>
          if distance < md then nearestLoop position rest (some (body, distance))
          else nearestLoop position rest (some (nb, md))

/-- `SolarSystem.get_nearest_body`: the body nearest to `position`, or `none`
for an empty registry. -/
def SolarSystem.get_nearest_body (sys : SolarSystem) (position : Vector3D) :
    Option CelestialBody :=
  (nearestLoop position sys.bodies none).map Prod.fst

/-- The demonstration craft of the end-to-end scenario: 4000 kg dry mass,
500 L of fuel, 10000 N max thrust, 300 s specific impulse, throttle 50 %. -/
def demoCraft : Spacecraft :=
  { id := "ship-001"
    name := "Explorer"
    ship_type := "scout"
    mass := 5000
    dry_mass := 4000
    max_fuel_capacity := 1000
    current_fuel := 500
    max_thrust := 10000
    specific_impulse := 300
    cruise_speed := 1000
    thrust_level := 0.5 }

/-- A full tank at a fuel rate of exactly 1 L/s: used to exercise
`consume_fuel` at the boundaries of its clamping behaviour. -/
def fullTankCraft : Spacecraft :=
  { id := "ship-002"
    name := "Tank"
    ship_type := "freighter"
    mass := 4375
    dry_mass := 4000
    max_fuel_capacity := 500
    current_fuel := 500
    max_thrust := 9810
    specific_impulse := 1000
    cruise_speed := 1000
    thrust_level := 1 }

/-- A celestial body with Earth-like parameters (mass 5.972e24 kg, radius
6.371e6 m), as in the `CelestialBody` docstring example. -/
def earthLike : CelestialBody :=
  { id := "earth"
    name := "Earth"
    type := "planet"
    mass := 5.972e24
    radius := 6.371e6
    atmosphere_pressure := 101.3
    atmosphere_depth := 100000
    temperature := 288
    has_atmosphere := true
    has_water := true }

/-- A degenerate body of zero radius, exercising the division guard of
`get_surface_gravity`. -/
def zeroRadiusBody : CelestialBody :=
  { id := "point"
    name := "Point"
    type := "asteroid"
    mass := 1e10
    radius := 0
    atmosphere_pressure := 0
    atmosphere_depth := 0
    temperature := 0
    has_atmosphere := false
    has_water := false }

/-- A massless probe at position (1, 0, 0): every mass-related field is 0. -/
def pointShip : Spacecraft :=
  { id := "probe"
    name := "Probe"
    ship_type := "scout"
    mass := 0
    dry_mass := 0
    max_fuel_capacity := 0
    current_fuel := 0
    max_thrust := 0
    specific_impulse := 1
    cruise_speed := 0
    position := ⟨1, 0, 0⟩ }

/-- A celestial body of zero mass at the origin. -/
def masslessBody : CelestialBody :=
  { id := "ghost"
    name := "Ghost"
    type := "asteroid"
    mass := 0
    radius := 1
    atmosphere_pressure := 0
    atmosphere_depth := 0
    temperature := 0
    has_atmosphere := false
    has_water := false }

/-! ### Life support (claim C4) -/

/-- C4: `update_life_support(dt)` decrements `oxygen_level` by exactly
`0.1·dt`, floored at 0, and recomputes `life_support_status` so that it is
"nominal" iff oxygen > 50, "warning" iff 20 < oxygen ≤ 50 (so exactly 50
gives "warning"), and "critical" iff oxygen ≤ 20 (so exactly 20 gives
"critical"), on every update and for every prior status. -/
theorem update_life_support_spec (s : Spacecraft) (dt : ℝ) :
    (s.update_life_support dt).oxygen_level = max 0 (s.oxygen_level - 0.1 * dt) ∧
    ((s.update_life_support dt).life_support_status = "nominal" ↔
      50 < (s.update_life_support dt).oxygen_level) ∧
    ((s.update_life_support dt).life_support_status = "warning" ↔
      20 < (s.update_life_support dt).oxygen_level ∧
        (s.update_life_support dt).oxygen_level ≤ 50) ∧
    ((s.update_life_support dt).life_support_status = "critical" ↔
      (s.update_life_support dt).oxygen_level ≤ 20) := by
  set o : ℝ := max 0 (s.oxygen_level - 0.1 * dt) with ho
  have hfield : (s.update_life_support dt).oxygen_level = o := rfl
  have hst : (s.update_life_support dt).life_support_status =
      (if o > 50 then "nominal" else if o > 20 then "warning" else "critical") := rfl
  refine ⟨hfield, ?_, ?_, ?_⟩ <;> rw [hst, hfield]
  · by_cases h50 : o > 50
    · rw [if_pos h50]
      exact ⟨fun _ => h50, fun _ => rfl⟩
    · rw [if_neg h50]
      refine ⟨fun h => ?_, fun h => absurd h h50⟩
      by_cases h20 : o > 20
      · rw [if_pos h20] at h
        exact absurd h (by decide)
      · rw [if_neg h20] at h
        exact absurd h (by decide)
  · by_cases h50 : o > 50
    · rw [if_pos h50]
      exact ⟨fun h => absurd h (by decide), fun h => absurd h50 (not_lt.mpr h.2)⟩
    · rw [if_neg h50]
      by_cases h20 : o > 20
      · rw [if_pos h20]
        exact ⟨fun _ => ⟨h20, not_lt.mp h50⟩, fun _ => rfl⟩
      · rw [if_neg h20]
        exact ⟨fun h => absurd h (by decide), fun h => absurd h.1 h20⟩
  · by_cases h50 : o > 50
    · rw [if_pos h50]
      refine ⟨fun h => absurd h (by decide), fun h => ?_⟩
      exact absurd h50 (not_lt.mpr (h.trans (by norm_num)))
    · rw [if_neg h50]
      by_cases h20 : o > 20
      · rw [if_pos h20]
        exact ⟨fun h => absurd h (by decide), fun h => absurd h20 (not_lt.mpr h)⟩
      · rw [if_neg h20]
        exact ⟨fun _ => not_lt.mp h20, fun _ => rfl⟩

/-! ### Fuel consumption (claims C5, C2, C3) -/

/-- On the positive-thrust branch, `consume_fuel` consumes the raw
boost-adjusted amount clamped to the available fuel. -/
theorem consume_fuel_pos (s : Spacecraft) (dt : ℝ) (ht : ¬ s.thrust_level ≤ 0) :
    s.consume_fuel dt =
      (min (if s.boost_active then
              s.thrust_level * s.max_thrust / (s.specific_impulse * 9.81) * dt * 2
            else s.thrust_level * s.max_thrust / (s.specific_impulse * 9.81) * dt)
          s.current_fuel,
        { s with current_fuel := (s.current_fuel -
            min (if s.boost_active then
                  s.thrust_level * s.max_thrust / (s.specific_impulse * 9.81) * dt * 2
                else s.thrust_level * s.max_thrust / (s.specific_impulse * 9.81) * dt)
              s.current_fuel) }) := by
  simp only [Spacecraft.consume_fuel, if_neg ht]

/-- C5: `consume_fuel(dt)` returns 0 and leaves the state unchanged when
`thrust_level ≤ 0`; otherwise it returns exactly the amount subtracted from
`current_fuel`, namely
`min((thrust_level·max_thrust/(specific_impulse·9.81))·dt·(2 if boost else 1),
current_fuel)`; and on the 4000 kg dry / 500 L fuel / 10000 N / 300 s Isp
craft at throttle 50 % for 1 s the amount consumed is exactly `5000/2943` L
and `get_current_mass()` afterwards equals `4000 + (500 − consumed)·0.75`. -/
theorem consume_fuel_spec (s : Spacecraft) (dt : ℝ) :
    (s.thrust_level ≤ 0 → s.consume_fuel dt = (0, s)) ∧
    (0 < s.thrust_level →
      (s.consume_fuel dt).1 =
        min (s.thrust_level * s.max_thrust / (s.specific_impulse * 9.81) * dt *
          (if s.boost_active then 2 else 1)) s.current_fuel ∧
      (s.consume_fuel dt).2.current_fuel = s.current_fuel - (s.consume_fuel dt).1) ∧
    ((demoCraft.consume_fuel 1).1 = 5000 / 2943 ∧
      (demoCraft.consume_fuel 1).2.get_current_mass =
        4000 + (500 - (demoCraft.consume_fuel 1).1) * 0.75) := by
  have hd : ¬ demoCraft.thrust_level ≤ 0 := by norm_num [demoCraft]
  refine ⟨?_, ?_, ?_, ?_⟩
  · intro h
    simp only [Spacecraft.consume_fuel, if_pos h]
  · intro h
    have hn : ¬ s.thrust_level ≤ 0 := not_le.mpr h
    rw [consume_fuel_pos s dt hn]
    refine ⟨?_, rfl⟩
    cases hb : s.boost_active <;> simp [hb]
  · rw [consume_fuel_pos demoCraft 1 hd]
    norm_num [demoCraft, min_def]
  · rw [consume_fuel_pos demoCraft 1 hd]
    norm_num [demoCraft, Spacecraft.get_current_mass, min_def]

/-- Witness for C5 at the demonstration craft: the positive-thrust branch at
throttle 50 % for one second. -/
theorem consume_fuel_spec_witness :
    (demoCraft.consume_fuel 1).2.current_fuel =
      demoCraft.current_fuel - (demoCraft.consume_fuel 1).1 :=
  ((consume_fuel_spec demoCraft 1).2.1 (by norm_num [demoCraft])).2

/-- Counterexample for C2: starting from a full 500 L tank (fuel within
`[0, max_fuel_capacity]`), `consume_fuel(-1)` pushes `current_fuel` to 501 L,
above `max_fuel_capacity` — no mutator clamps the fuel level to the
interval's upper end. -/
theorem consume_fuel_overfills_on_negative_dt :
    (0 : ℝ) ≤ fullTankCraft.current_fuel ∧
    fullTankCraft.current_fuel ≤ fullTankCraft.max_fuel_capacity ∧
    fullTankCraft.max_fuel_capacity <
      ((fullTankCraft.consume_fuel (-1)).2).current_fuel := by
  rw [consume_fuel_pos fullTankCraft (-1) (by norm_num [fullTankCraft])]
  norm_num [fullTankCraft, min_def]

/-- C2 (amended): for a spacecraft whose `current_fuel` starts in
`[0, max_fuel_capacity]`, `consume_fuel` never drives `current_fuel` negative
regardless of dt magnitude or thrust level; it keeps `current_fuel` within
`[0, max_fuel_capacity]` whenever `dt ≥ 0`, `max_thrust ≥ 0` and
`specific_impulse > 0`; and the other mutators (`update_life_support`,
`set_throttle`) leave `current_fuel` unchanged. -/
theorem consume_fuel_fuel_bounds (s : Spacecraft) (dt : ℝ)
    (h0 : 0 ≤ s.current_fuel) :
    0 ≤ (s.consume_fuel dt).2.current_fuel ∧
    (s.current_fuel ≤ s.max_fuel_capacity → 0 ≤ dt → 0 ≤ s.max_thrust →
      0 < s.specific_impulse →
      (s.consume_fuel dt).2.current_fuel ≤ s.max_fuel_capacity) ∧
    (s.update_life_support dt).current_fuel = s.current_fuel ∧
    (s.set_throttle dt).current_fuel = s.current_fuel := by
  refine ⟨?_, ?_, rfl, rfl⟩
  · by_cases ht : s.thrust_level ≤ 0
    · simpa only [Spacecraft.consume_fuel, if_pos ht] using h0
    · rw [consume_fuel_pos s dt ht]
      exact sub_nonneg.mpr (min_le_right _ _)
  · intro hmax hdt hth hsi
    by_cases ht : s.thrust_level ≤ 0
    · simpa only [Spacecraft.consume_fuel, if_pos ht] using hmax
    · have hth' : 0 < s.thrust_level := not_le.mp ht
      have hbase : 0 ≤ s.thrust_level * s.max_thrust / (s.specific_impulse * 9.81) * dt :=
        mul_nonneg (div_nonneg (mul_nonneg hth'.le hth) (by positivity)) hdt
      have hX : 0 ≤ (if s.boost_active then
            s.thrust_level * s.max_thrust / (s.specific_impulse * 9.81) * dt * 2
          else s.thrust_level * s.max_thrust / (s.specific_impulse * 9.81) * dt) := by
        split
        · linarith
        · exact hbase
      have hmin : 0 ≤ min (if s.boost_active then
            s.thrust_level * s.max_thrust / (s.specific_impulse * 9.81) * dt * 2
          else s.thrust_level * s.max_thrust / (s.specific_impulse * 9.81) * dt)
          s.current_fuel := le_min hX h0
      rw [consume_fuel_pos s dt ht]
      simp only
      linarith

/-- Witness for C2 at the full-tank craft with `dt = 1`: fuel stays within
`[0, 500]`. -/
theorem consume_fuel_fuel_bounds_witness :
    0 ≤ (fullTankCraft.consume_fuel 1).2.current_fuel ∧
    (fullTankCraft.consume_fuel 1).2.current_fuel ≤
      fullTankCraft.max_fuel_capacity :=
  ⟨(consume_fuel_fuel_bounds fullTankCraft 1 (by norm_num [fullTankCraft])).1,
    (consume_fuel_fuel_bounds fullTankCraft 1 (by norm_num [fullTankCraft])).2.1
      (by norm_num [fullTankCraft]) (by norm_num) (by norm_num [fullTankCraft])
      (by norm_num [fullTankCraft])⟩

/-- Counterexample for C3: from a full 500 L tank at a fuel rate of 1 L/s,
`consume_fuel(400)` with boost active is clamped to the 500 L available, not
double the 400 L of the non-boosted run (which would be 800 L). -/
theorem consume_fuel_boost_clamped :
    ({ fullTankCraft with boost_active := true }.consume_fuel 400).1 ≠
      2 * ({ fullTankCraft with boost_active := false }.consume_fuel 400).1 := by
  rw [consume_fuel_pos { fullTankCraft with boost_active := true } 400
      (by norm_num [fullTankCraft]),
    consume_fuel_pos { fullTankCraft with boost_active := false } 400
      (by norm_num [fullTankCraft])]
  norm_num [fullTankCraft, min_def]

/-- C3 (amended): from the same starting state with the same `thrust_level`
and dt, the fuel consumed with boost active is exactly double the fuel
consumed without boost, provided the unboosted raw consumption is nonnegative
and its double does not exceed the available fuel (so the clamp to
`current_fuel` does not fire). -/
theorem consume_fuel_boost_doubles (s : Spacecraft) (dt : ℝ)
    (hraw : 0 ≤ s.thrust_level * s.max_thrust / (s.specific_impulse * 9.81) * dt)
    (hcap : 2 * (s.thrust_level * s.max_thrust / (s.specific_impulse * 9.81) * dt) ≤
      s.current_fuel) :
    ({ s with boost_active := true }.consume_fuel dt).1 =
      2 * ({ s with boost_active := false }.consume_fuel dt).1 := by
  by_cases ht : s.thrust_level ≤ 0
  · simp only [Spacecraft.consume_fuel, if_pos ht]
    norm_num
  · rw [consume_fuel_pos { s with boost_active := true } dt ht,
      consume_fuel_pos { s with boost_active := false } dt ht]
    simp only [Bool.false_eq_true, if_true, if_false, ite_true, ite_false]
    rw [min_eq_left (by linarith), min_eq_left (by linarith)]
    ring

/-- Witness for C3 at the full-tank craft with `dt = 1`: 2 L consumed with
boost versus 1 L without. -/
theorem consume_fuel_boost_doubles_witness :
    ({ fullTankCraft with boost_active := true }.consume_fuel 1).1 =
      2 * ({ fullTankCraft with boost_active := false }.consume_fuel 1).1 :=
  consume_fuel_boost_doubles fullTankCraft 1 (by norm_num [fullTankCraft])
    (by norm_num [fullTankCraft])

/-! ### Frame conditions (claim C10) -/

/-- C10: `consume_fuel` mutates only `current_fuel` and `update_life_support`
mutates only `oxygen_level` and `life_support_status`; in particular neither
updates the constructor-supplied `mass` field, so a craft whose stored `mass`
initially agrees with `get_current_mass()` disagrees after fuel consumption —
total mass must be read through `get_current_mass()`, every other field being
unchanged by these two operations. -/
theorem mutator_frame_conditions (s : Spacecraft) (dt : ℝ) :
    (s.consume_fuel dt).2 =
      { s with current_fuel := (s.consume_fuel dt).2.current_fuel } ∧
    s.update_life_support dt =
      { s with
          oxygen_level := (s.update_life_support dt).oxygen_level,
          life_support_status := (s.update_life_support dt).life_support_status } ∧
    (s.consume_fuel dt).2.mass = s.mass ∧
    (s.update_life_support dt).mass = s.mass ∧
    fullTankCraft.mass = fullTankCraft.get_current_mass ∧
    ((fullTankCraft.consume_fuel 1).2).mass ≠
      ((fullTankCraft.consume_fuel 1).2).get_current_mass := by
  have hft : ¬ fullTankCraft.thrust_level ≤ 0 := by norm_num [fullTankCraft]
  refine ⟨?_, rfl, ?_, rfl, ?_, ?_⟩
  · by_cases ht : s.thrust_level ≤ 0
    · simp only [Spacecraft.consume_fuel, if_pos ht]
    · rw [consume_fuel_pos s dt ht]
  · by_cases ht : s.thrust_level ≤ 0
    · simp only [Spacecraft.consume_fuel, if_pos ht]
    · rw [consume_fuel_pos s dt ht]
  · norm_num [fullTankCraft, Spacecraft.get_current_mass]
  · rw [consume_fuel_pos fullTankCraft 1 hft]
    norm_num [fullTankCraft, Spacecraft.get_current_mass, min_def]

/-! ### Surface gravity (claim C8) -/

/-- C8: `get_surface_gravity()` returns exactly 0 when the radius is 0, and
otherwise returns `G·mass/radius²`; with Earth-like parameters (mass
5.972e24 kg, radius 6.371e6 m) the result lies in the open interval
(9.7, 9.9). -/
theorem get_surface_gravity_spec (b : CelestialBody) :
    (b.radius = 0 → b.get_surface_gravity = 0) ∧
    (b.radius ≠ 0 → b.get_surface_gravity = 6.67430e-11 * b.mass / b.radius ^ 2) ∧
    (9.7 < earthLike.get_surface_gravity ∧ earthLike.get_surface_gravity < 9.9) := by
  refine ⟨?_, ?_, ?_, ?_⟩
  · intro h
    simp only [CelestialBody.get_surface_gravity, if_pos h]
  · intro h
    simp only [CelestialBody.get_surface_gravity, if_neg h]
  · norm_num [CelestialBody.get_surface_gravity, earthLike]
  · norm_num [CelestialBody.get_surface_gravity, earthLike]

/-- Witness for C8: the zero-radius guard fires on a radius-0 body, and the
Earth-like body clears the lower bound. -/
theorem get_surface_gravity_spec_witness :
    zeroRadiusBody.get_surface_gravity = 0 ∧
    9.7 < earthLike.get_surface_gravity :=
  ⟨(get_surface_gravity_spec zeroRadiusBody).1 rfl,
    (get_surface_gravity_spec earthLike).2.2.1⟩

/-! ### Vector helper lemmas -/

theorem Vector3D.magnitude_nonneg (v : Vector3D) : 0 ≤ v.magnitude :=
  Real.sqrt_nonneg _

theorem Vector3D.sq_magnitude (v : Vector3D) :
    v.magnitude ^ 2 = v.x ^ 2 + v.y ^ 2 + v.z ^ 2 :=
  Real.sq_sqrt (by positivity)

theorem Vector3D.magnitude_eq_zero_iff (v : Vector3D) :
    v.magnitude = 0 ↔ v = ⟨0, 0, 0⟩ := by
  constructor
  · intro h
    have hle : v.x ^ 2 + v.y ^ 2 + v.z ^ 2 ≤ 0 := Real.sqrt_eq_zero'.mp h
    have h1 : v.x = 0 := by nlinarith [sq_nonneg v.x, sq_nonneg v.y, sq_nonneg v.z]
    have h2 : v.y = 0 := by nlinarith [sq_nonneg v.x, sq_nonneg v.y, sq_nonneg v.z]
    have h3 : v.z = 0 := by nlinarith [sq_nonneg v.x, sq_nonneg v.y, sq_nonneg v.z]
    exact Vector3D.ext h1 h2 h3
  · rintro rfl
    norm_num [Vector3D.magnitude, Real.sqrt_zero]

theorem Vector3D.magnitude_pos (v : Vector3D) (h : v ≠ ⟨0, 0, 0⟩) :
    0 < v.magnitude :=
  lt_of_le_of_ne (magnitude_nonneg v)
    (fun h0 => h ((magnitude_eq_zero_iff v).mp h0.symm))

theorem Vector3D.normalize_of_ne_zero (v : Vector3D) (h : v.magnitude ≠ 0) :
    v.normalize = ⟨v.x / v.magnitude, v.y / v.magnitude, v.z / v.magnitude⟩ := by
  simp only [Vector3D.normalize, if_neg h]

theorem Vector3D.magnitude_smul (v : Vector3D) (c : ℝ) :
    (v.smul c).magnitude = |c| * v.magnitude := by
  simp only [Vector3D.smul, Vector3D.magnitude]
  rw [show (v.x * c) ^ 2 + (v.y * c) ^ 2 + (v.z * c) ^ 2
      = c ^ 2 * (v.x ^ 2 + v.y ^ 2 + v.z ^ 2) by ring,
    Real.sqrt_mul (sq_nonneg c), Real.sqrt_sq_eq_abs]

theorem Vector3D.magnitude_neg_eq (v : Vector3D) : v.neg.magnitude = v.magnitude := by
  simp only [Vector3D.neg, Vector3D.magnitude]
  rw [show (-v.x) ^ 2 + (-v.y) ^ 2 + (-v.z) ^ 2 = v.x ^ 2 + v.y ^ 2 + v.z ^ 2 by ring]

theorem Vector3D.magnitude_normalize (v : Vector3D) (h : v ≠ ⟨0, 0, 0⟩) :
    v.normalize.magnitude = 1 := by
  have hm : 0 < v.magnitude := magnitude_pos v h
  have hv : (⟨v.x / v.magnitude, v.y / v.magnitude, v.z / v.magnitude⟩ : Vector3D)
      = v.smul (1 / v.magnitude) := by
    simp only [Vector3D.smul, mul_one_div]
  rw [normalize_of_ne_zero v hm.ne', hv, magnitude_smul,
    abs_of_pos (by positivity : (0 : ℝ) < 1 / v.magnitude), one_div,
    inv_mul_cancel₀ hm.ne']

theorem Vector3D.dot_smul_left (v w : Vector3D) (c : ℝ) :
    (v.smul c).dot w = c * v.dot w := by
  simp only [Vector3D.smul, Vector3D.dot]
  ring

theorem Vector3D.neg_dot (v w : Vector3D) : v.neg.dot w = -(v.dot w) := by
  simp only [Vector3D.neg, Vector3D.dot]
  ring

theorem Vector3D.dot_neg_right (v w : Vector3D) : v.dot w.neg = -(v.dot w) := by
  simp only [Vector3D.neg, Vector3D.dot]
  ring

theorem Vector3D.normalize_dot_self (v : Vector3D) (h : v ≠ ⟨0, 0, 0⟩) :
    v.normalize.dot v = v.magnitude := by
  have hm : 0 < v.magnitude := magnitude_pos v h
  rw [normalize_of_ne_zero v hm.ne']
  simp only [Vector3D.dot]
  rw [show v.x / v.magnitude * v.x + v.y / v.magnitude * v.y + v.z / v.magnitude * v.z
      = (v.x ^ 2 + v.y ^ 2 + v.z ^ 2) / v.magnitude by ring,
    ← Vector3D.sq_magnitude v, pow_two, mul_div_assoc, div_self hm.ne', mul_one]

theorem Vector3D.neg_sub_eq (a b : Vector3D) : (a.sub b).neg = b.sub a := by
  simp only [Vector3D.sub, Vector3D.neg, Vector3D.mk.injEq]
  exact ⟨by ring, by ring, by ring⟩

/-! ### Totality on degenerate inputs (claim C7) -/

/-- C7: the division-guarded operations are total on degenerate input:
`Vector3D.normalize` maps the zero vector to the zero vector (and any nonzero
vector to a vector of magnitude exactly 1), `Quaternion.normalize` maps a
zero-norm quaternion to the identity quaternion, and `calculate_acceleration`
with mass 0 returns the zero vector. -/
theorem division_guarded_totality :
    (Vector3D.normalize ⟨0, 0, 0⟩ = ⟨0, 0, 0⟩) ∧
    (∀ v : Vector3D, v ≠ ⟨0, 0, 0⟩ → v.normalize.magnitude = 1) ∧
    (∀ q : Quaternion, Real.sqrt (q.w ^ 2 + q.x ^ 2 + q.y ^ 2 + q.z ^ 2) = 0 →
      q.normalize = ⟨1, 0, 0, 0⟩) ∧
    (∀ force : Vector3D, calculate_acceleration force 0 = ⟨0, 0, 0⟩) := by
  refine ⟨?_, ?_, ?_, ?_⟩
  · have h : (⟨0, 0, 0⟩ : Vector3D).magnitude = 0 :=
      (Vector3D.magnitude_eq_zero_iff _).mpr rfl
    simp only [Vector3D.normalize, if_pos h]
  · exact fun v h => Vector3D.magnitude_normalize v h
  · intro q h
    simp only [Quaternion.normalize, if_pos h]
  · intro force
    simp only [calculate_acceleration, if_pos rfl, if_true]

/-- Witness for C7: the (3, 4, 0) vector normalizes to unit magnitude and the
zero quaternion normalizes to the identity. -/
theorem division_guarded_totality_witness :
    (Vector3D.normalize ⟨3, 4, 0⟩).magnitude = 1 ∧
    Quaternion.normalize ⟨0, 0, 0, 0⟩ = ⟨1, 0, 0, 0⟩ :=
  ⟨division_guarded_totality.2.1 ⟨3, 4, 0⟩ (by
      intro h
      have hx := congrArg Vector3D.x h
      norm_num at hx),
    division_guarded_totality.2.2.1 ⟨0, 0, 0, 0⟩ (by
      norm_num [Real.sqrt_zero])⟩

/-! ### Gravity (claim C1) -/

/-- Counterexample for C1: against a zero-mass body at a distinct position the
force is the zero vector, so the result dotted with
(bodyPosition − spacecraftPosition) is 0, not positive. -/
theorem calculate_gravity_dot_not_positive :
    pointShip.position ≠ masslessBody.position ∧
    ¬ 0 < (calculate_gravity pointShip masslessBody).dot
        (masslessBody.position.sub pointShip.position) := by
  have hne : pointShip.position ≠ masslessBody.position := by
    intro h
    have hx := congrArg Vector3D.x h
    norm_num [pointShip, masslessBody] at hx
  have hr : pointShip.position.sub masslessBody.position = ⟨1, 0, 0⟩ := by
    simp only [pointShip, masslessBody, Vector3D.sub, Vector3D.mk.injEq]
    norm_num
  have hd : (pointShip.position.sub masslessBody.position).magnitude = 1 := by
    rw [hr]
    simp only [Vector3D.magnitude]
    rw [show (1 : ℝ) ^ 2 + 0 ^ 2 + 0 ^ 2 = 1 by norm_num, Real.sqrt_one]
  have hdz : (pointShip.position.sub masslessBody.position).magnitude ≠ 0 := by
    rw [hd]
    norm_num
  refine ⟨hne, ?_⟩
  have heq : calculate_gravity pointShip masslessBody =
      ((pointShip.position.sub masslessBody.position).normalize.neg).smul
        (gravitational_constant * masslessBody.mass * pointShip.get_current_mass /
          (pointShip.position.sub masslessBody.position).magnitude ^ 2) := by
    simp only [calculate_gravity, if_neg hdz]
  have hc : gravitational_constant * masslessBody.mass * pointShip.get_current_mass /
      (pointShip.position.sub masslessBody.position).magnitude ^ 2 = 0 := by
    norm_num [masslessBody]
  rw [heq, hc, Vector3D.dot_smul_left, zero_mul]
  norm_num

/-- C1 (amended): `calculate_gravity` returns the zero vector when the
spacecraft's position equals the body's position; otherwise it returns
`(−normalize(r))·(G·bodyMass·spacecraftCurrentMass/|r|²)` with
`r = spacecraftPosition − bodyPosition` and `G = 6.67430e-11`, whose magnitude
is `G·bodyMass·spacecraftCurrentMass/|r|²` whenever both masses are
nonnegative, and whose dot product with (bodyPosition − spacecraftPosition)
is positive whenever both masses are positive. -/
theorem calculate_gravity_spec (s : Spacecraft) (b : CelestialBody) :
    (s.position = b.position → calculate_gravity s b = ⟨0, 0, 0⟩) ∧
    (s.position ≠ b.position →
      calculate_gravity s b =
        ((s.position.sub b.position).normalize.neg).smul
          (gravitational_constant * b.mass * s.get_current_mass /
            (s.position.sub b.position).magnitude ^ 2) ∧
      (0 ≤ b.mass → 0 ≤ s.get_current_mass →
        (calculate_gravity s b).magnitude =
          gravitational_constant * b.mass * s.get_current_mass /
            (s.position.sub b.position).magnitude ^ 2) ∧
      (0 < b.mass → 0 < s.get_current_mass →
        0 < (calculate_gravity s b).dot (b.position.sub s.position))) := by
  have hG : 0 < gravitational_constant := by norm_num [gravitational_constant]
  constructor
  · intro h
    have hr : s.position.sub b.position = ⟨0, 0, 0⟩ := by
      rw [h]
      simp only [Vector3D.sub, Vector3D.mk.injEq]
      norm_num
    have hd : (s.position.sub b.position).magnitude = 0 :=
      (Vector3D.magnitude_eq_zero_iff _).mpr hr
    simp only [calculate_gravity, if_pos hd]
  · intro h
    have hrne : s.position.sub b.position ≠ ⟨0, 0, 0⟩ := by
      intro h0
      apply h
      have hx := congrArg Vector3D.x h0
      have hy := congrArg Vector3D.y h0
      have hz := congrArg Vector3D.z h0
      simp only [Vector3D.sub] at hx hy hz
      exact Vector3D.ext (by linarith [sub_eq_zero.mp hx])
        (by linarith [sub_eq_zero.mp hy]) (by linarith [sub_eq_zero.mp hz])
    have hd : 0 < (s.position.sub b.position).magnitude :=
      Vector3D.magnitude_pos _ hrne
    have heq : calculate_gravity s b =
        ((s.position.sub b.position).normalize.neg).smul
          (gravitational_constant * b.mass * s.get_current_mass /
            (s.position.sub b.position).magnitude ^ 2) := by
      simp only [calculate_gravity, if_neg hd.ne']
    refine ⟨heq, ?_, ?_⟩
    · intro hM hm
      rw [heq, Vector3D.magnitude_smul, Vector3D.magnitude_neg_eq,
        Vector3D.magnitude_normalize _ hrne, mul_one,
        abs_of_nonneg (div_nonneg (mul_nonneg (mul_nonneg hG.le hM) hm)
          (by positivity))]
    · intro hM hm
      have hdot : ((s.position.sub b.position).normalize.neg).dot
          ((s.position.sub b.position).neg) =
          (s.position.sub b.position).magnitude := by
        rw [Vector3D.neg_dot, Vector3D.dot_neg_right, neg_neg,
          Vector3D.normalize_dot_self _ hrne]
      rw [heq, ← Vector3D.neg_sub_eq s.position b.position,
        Vector3D.dot_smul_left, hdot]
      exact mul_pos (div_pos (mul_pos (mul_pos hG hM) hm) (pow_pos hd 2)) hd

/-- Witness for C1: the demonstration craft displaced to (3, 4, 0) is pulled
toward an Earth-like body at the origin. -/
theorem calculate_gravity_spec_witness :
    0 < (calculate_gravity { demoCraft with position := ⟨3, 4, 0⟩ } earthLike).dot
        (earthLike.position.sub ({ demoCraft with position := ⟨3, 4, 0⟩ } :
          Spacecraft).position) :=
  ((calculate_gravity_spec { demoCraft with position := ⟨3, 4, 0⟩ } earthLike).2
    (by
      intro h
      have hx := congrArg Vector3D.x h
      norm_num [demoCraft, earthLike] at hx)).2.2
    (by norm_num [earthLike])
    (by norm_num [Spacecraft.get_current_mass, demoCraft])

/-! ### Nearest body (claim C9) -/

/-- Invariant of the `get_nearest_body` loop: starting from a champion `c`
paired with its distance, the loop returns some body paired with its
distance; that body is the champion or a list element, its distance is
minimal among the champion and all list elements, and when the champion got
replaced the winner sits in the list strictly closer than the champion and
than everything before it (the first strict minimum wins). -/
theorem nearestLoop_some (position : Vector3D) :
    ∀ (l : List CelestialBody) (c : CelestialBody),
      ∃ b : CelestialBody,
        nearestLoop position l (some (c, (position.sub c.position).magnitude)) =
          some (b, (position.sub b.position).magnitude) ∧
        (b = c ∨ b ∈ l) ∧
        (position.sub b.position).magnitude ≤ (position.sub c.position).magnitude ∧
        (∀ x ∈ l,
          (position.sub b.position).magnitude ≤ (position.sub x.position).magnitude) ∧
        (b = c ∨ ∃ l1 l2, l = l1 ++ b :: l2 ∧
          (position.sub b.position).magnitude < (position.sub c.position).magnitude ∧
          ∀ x ∈ l1,
            (position.sub b.position).magnitude < (position.sub x.position).magnitude)
  | [], c =>
      ⟨c, rfl, Or.inl rfl, le_refl _,
        fun x hx => absurd hx (List.not_mem_nil x), Or.inl rfl⟩
  | a :: t, c => by
      simp only [nearestLoop]
      by_cases hlt : (position.sub a.position).magnitude <
          (position.sub c.position).magnitude
      · rw [if_pos hlt]
        obtain ⟨b, hb1, hb2, hb3, hb4, hb5⟩ := nearestLoop_some position t a
        refine ⟨b, hb1, ?_, hb3.trans hlt.le, ?_, ?_⟩
        · rcases hb2 with h | h
          · exact Or.inr (h ▸ List.mem_cons_self a t)
          · exact Or.inr (List.mem_cons_of_mem a h)
        · intro x hx
          rcases List.mem_cons.mp hx with rfl | hx
          · exact hb3
          · exact hb4 x hx
        · rcases hb5 with h | ⟨l1, l2, hl, hblt, hpre⟩
          · refine Or.inr ⟨[], t, by rw [h]; rfl, by rw [h]; exact hlt,
              fun x hx => absurd hx (List.not_mem_nil x)⟩
          · refine Or.inr ⟨a :: l1, l2, by rw [hl, List.cons_append], hblt.trans hlt, ?_⟩
            intro x hx
            rcases List.mem_cons.mp hx with rfl | hx
            · exact hblt
            · exact hpre x hx
      · rw [if_neg hlt]
        have hge : (position.sub c.position).magnitude ≤
            (position.sub a.position).magnitude := not_lt.mp hlt
        obtain ⟨b, hb1, hb2, hb3, hb4, hb5⟩ := nearestLoop_some position t c
        refine ⟨b, hb1, ?_, hb3, ?_, ?_⟩
        · rcases hb2 with h | h
          · exact Or.inl h
          · exact Or.inr (List.mem_cons_of_mem a h)
        · intro x hx
          rcases List.mem_cons.mp hx with rfl | hx
          · exact hb3.trans hge
          · exact hb4 x hx
        · rcases hb5 with h | ⟨l1, l2, hl, hblt, hpre⟩
          · exact Or.inl h
          · refine Or.inr ⟨a :: l1, l2, by rw [hl, List.cons_append], hblt, ?_⟩
            intro x hx
            rcases List.mem_cons.mp hx with rfl | hx
            · exact hblt.trans_le hge
            · exact hpre x hx

/-- C9: `get_nearest_body` returns `none` iff the registry is empty, and
otherwise returns a body at minimal Euclidean distance to the point, ties
going to the first such body in iteration order; after construction the star
is present in the registry, so on a freshly constructed system the `none`
branch is unreachable. -/
theorem get_nearest_body_spec (sys : SolarSystem) (position : Vector3D) :
    (sys.get_nearest_body position = none ↔ sys.bodies = []) ∧
    (∀ b, sys.get_nearest_body position = some b →
      b ∈ sys.bodies ∧
      (∀ x ∈ sys.bodies,
        (position.sub b.position).magnitude ≤ (position.sub x.position).magnitude) ∧
      ∃ l1 l2, sys.bodies = l1 ++ b :: l2 ∧
        ∀ x ∈ l1,
          (position.sub b.position).magnitude < (position.sub x.position).magnitude) ∧
    (the_sun ∈ SolarSystem.init.bodies ∧
      SolarSystem.init.get_nearest_body position ≠ none) := by
  refine ⟨⟨?_, ?_⟩, ?_, ?_, ?_⟩
  · intro h
    cases hl : sys.bodies with
    | nil => rfl
    | cons a t =>
        exfalso
        rw [SolarSystem.get_nearest_body, hl] at h
        simp only [nearestLoop] at h
        obtain ⟨b, hb1, -, -, -, -⟩ := nearestLoop_some position t a
        rw [hb1] at h
        simp at h
  · intro h
    rw [SolarSystem.get_nearest_body, h]
    rfl
  · intro b hb
    cases hl : sys.bodies with
    | nil =>
        rw [SolarSystem.get_nearest_body, hl] at hb
        simp [nearestLoop] at hb
    | cons a t =>
        rw [SolarSystem.get_nearest_body, hl] at hb
        simp only [nearestLoop] at hb
        obtain ⟨b', hb1, hb2, hb3, hb4, hb5⟩ := nearestLoop_some position t a
        rw [hb1] at hb
        have hbb : b' = b := by simpa using hb
        subst hbb
        refine ⟨?_, ?_, ?_⟩
        · rcases hb2 with rfl | h
          · exact List.mem_cons_self _ _
          · exact List.mem_cons_of_mem _ h
        · intro x hx
          rcases List.mem_cons.mp hx with rfl | hx
          · exact hb3
          · exact hb4 x hx
        · rcases hb5 with rfl | ⟨l1, l2, h1, h2, h3⟩
          · exact ⟨[], t, rfl, fun x hx => absurd hx (List.not_mem_nil x)⟩
          · refine ⟨a :: l1, l2, by rw [h1, List.cons_append], ?_⟩
            intro x hx
            rcases List.mem_cons.mp hx with rfl | hx
            · exact h2
            · exact h3 x hx
  · simp [SolarSystem.init]
  · simp [SolarSystem.get_nearest_body, SolarSystem.init, nearestLoop]

/-- Witness for C9: on the freshly constructed system the Sun is returned as
the nearest body to the origin, and it is a member of the registry. -/
theorem get_nearest_body_spec_witness :
    SolarSystem.init.get_nearest_body ⟨0, 0, 0⟩ = some the_sun ∧
    the_sun ∈ SolarSystem.init.bodies :=
  ⟨rfl, ((get_nearest_body_spec SolarSystem.init ⟨0, 0, 0⟩).2.1 the_sun rfl).1⟩

/-! ### Euler round trip (claim C6) -/

theorem euler_sin_pitch (p y r : ℝ) :
    2 * ((Quaternion.from_euler p y r).w * (Quaternion.from_euler p y r).y -
      (Quaternion.from_euler p y r).z * (Quaternion.from_euler p y r).x) =
      Real.sin p := by
  have hy := Real.sin_sq_add_cos_sq (y * 0.5)
  have hr := Real.sin_sq_add_cos_sq (r * 0.5)
  have hs : Real.sin p = 2 * Real.sin (p * 0.5) * Real.cos (p * 0.5) := by
    have h := Real.sin_two_mul (p * 0.5)
    rw [show 2 * (p * 0.5) = p by ring] at h
    exact h
  simp only [Quaternion.from_euler]
  rw [hs]
  linear_combination (2 * Real.cos (p * 0.5) * Real.sin (p * 0.5) *
      (Real.sin (r * 0.5) ^ 2 + Real.cos (r * 0.5) ^ 2)) * hy +
    (2 * Real.cos (p * 0.5) * Real.sin (p * 0.5)) * hr

theorem euler_yaw_num (p y r : ℝ) :
    2 * ((Quaternion.from_euler p y r).w * (Quaternion.from_euler p y r).z +
      (Quaternion.from_euler p y r).x * (Quaternion.from_euler p y r).y) =
      Real.sin y * Real.cos p := by
  have hr := Real.sin_sq_add_cos_sq (r * 0.5)
  have hsy : Real.sin y = 2 * Real.sin (y * 0.5) * Real.cos (y * 0.5) := by
    have h := Real.sin_two_mul (y * 0.5)
    rw [show 2 * (y * 0.5) = y by ring] at h
    exact h
  have hcp : Real.cos p = Real.cos (p * 0.5) ^ 2 - Real.sin (p * 0.5) ^ 2 := by
    have h := Real.cos_two_mul' (p * 0.5)
    rw [show 2 * (p * 0.5) = p by ring] at h
    exact h
  simp only [Quaternion.from_euler]
  rw [hsy, hcp]
  linear_combination (2 * Real.cos (y * 0.5) * Real.sin (y * 0.5) *
    (Real.cos (p * 0.5) ^ 2 - Real.sin (p * 0.5) ^ 2)) * hr

theorem euler_yaw_den (p y r : ℝ) :
    1 - 2 * ((Quaternion.from_euler p y r).y ^ 2 + (Quaternion.from_euler p y r).z ^ 2) =
      Real.cos y * Real.cos p := by
  have hy := Real.sin_sq_add_cos_sq (y * 0.5)
  have hp := Real.sin_sq_add_cos_sq (p * 0.5)
  have hr := Real.sin_sq_add_cos_sq (r * 0.5)
  have hcy : Real.cos y = 2 * Real.cos (y * 0.5) ^ 2 - 1 := by
    have h := Real.cos_two_mul (y * 0.5)
    rw [show 2 * (y * 0.5) = y by ring] at h
    exact h
  have hcp : Real.cos p = 2 * Real.cos (p * 0.5) ^ 2 - 1 := by
    have h := Real.cos_two_mul (p * 0.5)
    rw [show 2 * (p * 0.5) = p by ring] at h
    exact h
  simp only [Quaternion.from_euler]
  rw [hcy, hcp]
  linear_combination (-2 * Real.cos (p * 0.5) ^ 2) * hy +
    (-2 * Real.cos (y * 0.5) ^ 2) * hp +
    (-2 * (Real.sin (y * 0.5) ^ 2 * Real.cos (p * 0.5) ^ 2 +
      Real.cos (y * 0.5) ^ 2 * Real.sin (p * 0.5) ^ 2)) * hr

theorem euler_roll_num (p y r : ℝ) :
    2 * ((Quaternion.from_euler p y r).w * (Quaternion.from_euler p y r).x +
      (Quaternion.from_euler p y r).y * (Quaternion.from_euler p y r).z) =
      Real.sin r * Real.cos p := by
  have hy := Real.sin_sq_add_cos_sq (y * 0.5)
  have hsr : Real.sin r = 2 * Real.sin (r * 0.5) * Real.cos (r * 0.5) := by
    have h := Real.sin_two_mul (r * 0.5)
    rw [show 2 * (r * 0.5) = r by ring] at h
    exact h
  have hcp : Real.cos p = Real.cos (p * 0.5) ^ 2 - Real.sin (p * 0.5) ^ 2 := by
    have h := Real.cos_two_mul' (p * 0.5)
    rw [show 2 * (p * 0.5) = p by ring] at h
    exact h
  simp only [Quaternion.from_euler]
  rw [hsr, hcp]
  linear_combination (2 * Real.cos (r * 0.5) * Real.sin (r * 0.5) *
    (Real.cos (p * 0.5) ^ 2 - Real.sin (p * 0.5) ^ 2)) * hy

theorem euler_roll_den (p y r : ℝ) :
    1 - 2 * ((Quaternion.from_euler p y r).x ^ 2 + (Quaternion.from_euler p y r).y ^ 2) =
      Real.cos r * Real.cos p := by
  have hy := Real.sin_sq_add_cos_sq (y * 0.5)
  have hp := Real.sin_sq_add_cos_sq (p * 0.5)
  have hr := Real.sin_sq_add_cos_sq (r * 0.5)
  have hcr : Real.cos r = 2 * Real.cos (r * 0.5) ^ 2 - 1 := by
    have h := Real.cos_two_mul (r * 0.5)
    rw [show 2 * (r * 0.5) = r by ring] at h
    exact h
  have hcp : Real.cos p = 2 * Real.cos (p * 0.5) ^ 2 - 1 := by
    have h := Real.cos_two_mul (p * 0.5)
    rw [show 2 * (p * 0.5) = p by ring] at h
    exact h
  simp only [Quaternion.from_euler]
  rw [hcr, hcp]
  linear_combination (-2 * Real.cos (r * 0.5) ^ 2) * hp +
    (-2 * Real.cos (p * 0.5) ^ 2) * hr +
    (-2 * (Real.sin (p * 0.5) ^ 2 * Real.cos (r * 0.5) ^ 2 +
      Real.cos (p * 0.5) ^ 2 * Real.sin (r * 0.5) ^ 2)) * hy

theorem atan2_of_pos (y x : ℝ) (hx : 0 < x) : atan2 y x = Real.arctan (y / x) := by
  simp only [atan2, if_pos hx]

theorem atan2_mul_cos (θ k : ℝ) (h1 : -(Real.pi / 2) < θ) (h2 : θ < Real.pi / 2)
    (hk : 0 < k) : atan2 (Real.sin θ * k) (Real.cos θ * k) = θ := by
  have hc : 0 < Real.cos θ := Real.cos_pos_of_mem_Ioo ⟨h1, h2⟩
  have hx : 0 < Real.cos θ * k := mul_pos hc hk
  rw [atan2_of_pos _ _ hx, mul_div_mul_right _ _ hk.ne',
    ← Real.tan_eq_sin_div_cos, Real.arctan_tan h1 h2]

/-- C6: for all angles p, y, r strictly inside (−π/2, π/2),
`from_euler(p, y, r)` followed by `to_euler()` returns a triple within 1e-6 of
(p, y, r) in each component (over the reals the round trip is exact). -/
theorem euler_round_trip (p y r : ℝ)
    (hp1 : -(Real.pi / 2) < p) (hp2 : p < Real.pi / 2)
    (hy1 : -(Real.pi / 2) < y) (hy2 : y < Real.pi / 2)
    (hr1 : -(Real.pi / 2) < r) (hr2 : r < Real.pi / 2) :
    |((Quaternion.from_euler p y r).to_euler).1 - p| ≤ 1e-6 ∧
    |((Quaternion.from_euler p y r).to_euler).2.1 - y| ≤ 1e-6 ∧
    |((Quaternion.from_euler p y r).to_euler).2.2 - r| ≤ 1e-6 := by
  have hcp : 0 < Real.cos p := Real.cos_pos_of_mem_Ioo ⟨hp1, hp2⟩
  have h1 : ((Quaternion.from_euler p y r).to_euler).1 = p := by
    simp only [Quaternion.to_euler]
    rw [euler_sin_pitch p y r, Real.arcsin_sin (by linarith) (by linarith)]
  have h2 : ((Quaternion.from_euler p y r).to_euler).2.1 = y := by
    simp only [Quaternion.to_euler]
    rw [euler_yaw_num p y r, euler_yaw_den p y r]
    exact atan2_mul_cos y (Real.cos p) hy1 hy2 hcp
  have h3 : ((Quaternion.from_euler p y r).to_euler).2.2 = r := by
    simp only [Quaternion.to_euler]
    rw [euler_roll_num p y r, euler_roll_den p y r]
    exact atan2_mul_cos r (Real.cos p) hr1 hr2 hcp
  refine ⟨?_, ?_, ?_⟩
  · rw [h1, sub_self, abs_zero]
    norm_num
  · rw [h2, sub_self, abs_zero]
    norm_num
  · rw [h3, sub_self, abs_zero]
    norm_num

/-- Witness for C6 at pitch = yaw = roll = 0, which lies strictly inside
(−π/2, π/2) in every component. -/
theorem euler_round_trip_witness :
    |((Quaternion.from_euler 0 0 0).to_euler).1 - 0| ≤ 1e-6 ∧
    |((Quaternion.from_euler 0 0 0).to_euler).2.1 - 0| ≤ 1e-6 ∧
    |((Quaternion.from_euler 0 0 0).to_euler).2.2 - 0| ≤ 1e-6 :=
  euler_round_trip 0 0 0 (neg_lt_zero.mpr (by positivity)) (by positivity)
    (neg_lt_zero.mpr (by positivity)) (by positivity)
    (neg_lt_zero.mpr (by positivity)) (by positivity)
